import Mathlib

/-!
Formal model of the Ensovo stock-sync engine.

This file gives a shallow embedding of the synchronization core of the
repository: the `SyncService` class of `src/services/sync.js` (webhook
handling, delta-vs-full reconciliation, debounce coalescing, echo locks,
Redis-backed caches, logs and counters) and the catalog functions of the
store adapter `src/services/shopify.js` (`getProductsByTag`,
`getProductByEan`).  JavaScript objects become Lean structures, the Redis
key-value store and the in-process debounce map become an explicit `State`
record, adapter calls are recorded in an effect trace, and a thrown
JavaScript error is an explicit flag.  All definitions are executable.
-/

namespace EnsovoSync

/-- The two Shopify stores, `store1` and `store2` in the source. -/
inductive Store
  | store1
  | store2
deriving DecidableEq, Repr

/-- `sourceStore === 'store1' ? 'store2' : 'store1'` — the counterpart store. -/
def Store.other : Store → Store
  | .store1 => .store2
  | .store2 => .store1

/-- A product variant; only the fields the sync engine reads are kept:
`variant.inventory_item_id` and `variant.barcode` (the EAN, `null`able). -/
structure Variant where
  inventory_item_id : Nat
  barcode : Option String
deriving DecidableEq, Repr

/-- A Shopify product as the adapter returns it: `tags` is the raw
comma-separated tag string, exactly as in the REST payload. -/
structure Product where
  title : String
  tags : String
  variants : List Variant
deriving DecidableEq, Repr

/-- Split a character list at commas, modelling `p.tags.split(',')`. -/
def splitCommaAux : List Char → List Char → List (List Char)
  | [], acc => [acc.reverse]
  | c :: cs, acc =>
    if c = ',' then acc.reverse :: splitCommaAux cs []
    else splitCommaAux cs (c :: acc)

/-- Strip leading and trailing spaces, modelling `t.trim()` on tag fragments. -/
def trimChars (l : List Char) : List Char :=
  ((l.dropWhile (· = ' ')).reverse.dropWhile (· = ' ')).reverse

/-- `p.tags.split(',').map(t => t.trim()).includes(tag)` from
`getProductsByTag` in `src/services/shopify.js`. -/
def hasTag (p : Product) (tag : String) : Bool :=
  ((splitCommaAux p.tags.data []).map trimChars).contains tag.data

/-- `getProductsByTag` of the second (Link-header paginating) revision of
`src/services/shopify.js`: the adapter's catalog is a list of pages; every
page is fetched in turn and filtered by the sync tag, accumulating
`allProducts`. -/
def getProductsByTag (tag : String) : List (List Product) → List Product
  | [] => []
  | page :: rest => page.filter (fun p => hasTag p tag) ++ getProductsByTag tag rest

/-- `getProductsByTag` of the first revision of `src/services/shopify.js`
(lines 53-68): the loop body runs once and then sets
`url = null; // Simplified pagination for now`, so only the first page is
ever filtered. -/
def getProductsByTag_v1 (tag : String) (pages : List (List Product)) : List Product :=
  (pages.headD []).filter (fun p => hasTag p tag)

/-- `product.variants.find(v => v.inventory_item_id === inventoryItemId)`. -/
def findVariantByItem (vs : List Variant) (iid : Nat) : Option Variant :=
  vs.find? (fun v => v.inventory_item_id == iid)

/-- The nested search loop of `findProductByInventoryItemCached`: first
product having a variant with the given `inventory_item_id`. -/
def searchByInventoryItem : List Product → Nat → Option (Product × Variant)
  | [], _ => none
  | p :: ps, iid =>
    match findVariantByItem p.variants iid with
    | some v => some (p, v)
    | none => searchByInventoryItem ps iid

/-- `product.variants.find(v => v.barcode === ean)`. -/
def findVariantByEan (vs : List Variant) (ean : String) : Option Variant :=
  vs.find? (fun v => v.barcode == some ean)

/-- The search loop of `getProductByEan`: first product having a variant
with the given barcode. -/
def searchByEan : List Product → String → Option (Product × Variant)
  | [], _ => none
  | p :: ps, ean =>
    match findVariantByEan p.variants ean with
    | some v => some (p, v)
    | none => searchByEan ps ean

/-- The paginating `getProductsByTag` returns exactly the products of the
whole catalog that carry the tag. -/
theorem getProductsByTag_complete (tag : String) (pages : List (List Product)) (p : Product) :
    p ∈ getProductsByTag tag pages ↔ p ∈ pages.flatten ∧ hasTag p tag = true := by
  induction pages with
  | nil => simp [getProductsByTag]
  | cons page rest ih =>
    simp [getProductsByTag, ih, List.mem_filter, or_and_right]

/-- A product without the sync tag, sitting on page 1 of a test catalog. -/
def productPlain : Product :=
  { title := "plain", tags := "other", variants := [⟨301, some "E9"⟩] }

/-- A product carrying the sync tag, sitting on page 2 of a test catalog. -/
def productTagged : Product :=
  { title := "tagged", tags := "sync-stock, featured", variants := [⟨302, some "E8"⟩] }

/-- A two-page catalog whose only sync-tagged product is on the second page. -/
def pagesC7 : List (List Product) := [[productPlain], [productTagged]]

/-- Default sync tag: `process.env.SYNC_TAG || 'sync-stock'`. -/
def syncTag : String := "sync-stock"

/-- A normalized inbound inventory webhook:
`{ inventory_item_id, location_id, available }` plus the route's store. -/
structure Event where
  sourceStore : Store
  inventory_item_id : Nat
  location_id : Int
  available : Int
deriving DecidableEq, Repr

/-- The environment the engine runs against: each store adapter's paginated
catalog, the id of its location named `Ensovo` (`none` makes
`getLocationByName` throw), and whether its inventory write endpoints fail
with a `StoreApiError`. -/
structure World where
  pages : Store → List (List Product)
  ensovoLoc : Store → Option Int
  adjustFails : Store → Bool
  setFails : Store → Bool

/-- `'delta'` or `'full'`, the `type` field of a sync log record. -/
inductive SyncKind
  | delta
  | full
deriving DecidableEq, Repr

/-- A persisted `sync:log:*` record written by `logSyncEvent`. -/
structure SyncLogEntry where
  sourceStore : Store
  targetStore : Store
  ean : String
  value : Int
  kind : SyncKind
deriving DecidableEq, Repr

/-- A persisted `error:log:*` record written by `logError`. -/
structure ErrorLogEntry where
  message : String
  sourceStore : Store
  event : Event
deriving DecidableEq, Repr

/-- The debounced closure's captured data: `previousAvailable`, `delta` and
`available` are fixed when `handleInventoryUpdate` schedules the callback. -/
structure PendingSync where
  previousAvailable : Option Int
  delta : Int
  available : Int
deriving DecidableEq, Repr

/-- The mutable state: the Redis keyspace (`inventory:<store>:<ean>`,
`sync:lock:<store>:<itemId>`, `products:<store>:<tag>`, the two log
families and the two counters) plus the in-process `pendingSyncs` debounce
map keyed like `sync:debounce:<store>:<ean>`. -/
structure State where
  inventory : Store → String → Option Int
  locks : Store → Nat → Bool
  productsCache : Store → Option (List Product)
  syncLogs : List SyncLogEntry
  errorLogs : List ErrorLogEntry
  syncCount : Nat
  errorCount : Nat
  pending : Store → String → Option PendingSync

/-- A state with empty caches, no locks, no logs and no pending timers. -/
def emptyState : State where
  inventory := fun _ _ => none
  locks := fun _ _ => false
  productsCache := fun _ => none
  syncLogs := []
  errorLogs := []
  syncCount := 0
  errorCount := 0
  pending := fun _ _ => none

/-- One call to a store adapter, recorded in order of execution. -/
inductive Effect
  | locationGet (s : Store)
  | catalogFetch (s : Store)
  | productByEan (s : Store) (ean : String)
  | adjustLevel (s : Store) (itemId : Nat) (loc : Int) (d : Int)
  | setLevel (s : Store) (itemId : Nat) (loc : Int) (v : Int)
deriving DecidableEq, Repr

/-- Whether an adapter call writes inventory (`adjustInventoryLevel` or
`setInventoryLevel`); the other calls are reads. -/
def Effect.isWrite : Effect → Bool
  | .adjustLevel _ _ _ _ => true
  | .setLevel _ _ _ _ => true
  | _ => false

/-- A trace containing no adapter inventory write. -/
def noWrites (tr : List Effect) : Bool :=
  tr.all (fun eff => ! eff.isWrite)

/-- A trace containing at least one adapter inventory write. -/
def hasWrite (tr : List Effect) : Bool :=
  tr.any (fun eff => eff.isWrite)

/-- `redis.setEx('inventory:<s>:<ean>', 86400, v.toString())`. -/
def setInventory (st : State) (s : Store) (ean : String) (v : Int) : State :=
  { st with inventory := fun s' e' => if s' = s ∧ e' = ean then some v else st.inventory s' e' }

/-- `redis.setEx('sync:lock:<s>:<iid>', ttl, '1')`. -/
def setLock (st : State) (s : Store) (iid : Nat) : State :=
  { st with locks := fun s' i' => if s' = s ∧ i' = iid then true else st.locks s' i' }

/-- `redis.setEx('products:<s>:<tag>', cacheDuration, JSON.stringify(products))`. -/
def setProductsCache (st : State) (s : Store) (ps : List Product) : State :=
  { st with productsCache := fun s' => if s' = s then some ps else st.productsCache s' }

/-- Register the debounced callback under its key, replacing any pending
one: `clearTimeout(pendingSyncs.get(key)); pendingSyncs.set(key, timeoutId)`. -/
def setPending (st : State) (s : Store) (ean : String) (a : PendingSync) : State :=
  { st with pending := fun s' e' => if s' = s ∧ e' = ean then some a else st.pending s' e' }

/-- `pendingSyncs.delete(key)`, executed when the timer fires. -/
def clearPending (st : State) (s : Store) (ean : String) : State :=
  { st with pending := fun s' e' => if s' = s ∧ e' = ean then none else st.pending s' e' }

/-- `logSyncEvent`: persist one `sync:log:*` record for 7 days and
`redis.incr('sync:count:total')`. -/
def logSyncEvent (st : State) (src tgt : Store) (ean : String) (value : Int)
    (kind : SyncKind) : State :=
  { st with
    syncLogs := ⟨src, tgt, ean, value, kind⟩ :: st.syncLogs
    syncCount := st.syncCount + 1 }

/-- `logError`: persist one `error:log:*` record for 7 days and
`redis.incr('error:count:total')`. -/
def logError (st : State) (msg : String) (src : Store) (e : Event) : State :=
  { st with
    errorLogs := ⟨msg, src, e⟩ :: st.errorLogs
    errorCount := st.errorCount + 1 }

/-- `findProductByInventoryItemCached`: on a `products:<store>:<tag>` cache
hit, search the cached snapshot; on a miss, fetch the full tagged catalog
via `getProductsByTag`, cache it with TTL, then search it. -/
def findProductByInventoryItemCached (w : World) (st : State) (storeName : Store)
    (iid : Nat) : State × List Effect × Option (Product × Variant) :=
  match st.productsCache storeName with
  | some products => (st, [], searchByInventoryItem products iid)
  | none =>
    let products := getProductsByTag syncTag (w.pages storeName)
    (setProductsCache st storeName products, [.catalogFetch storeName],
      searchByInventoryItem products iid)

/-- `getProductByEan` of the first `src/services/shopify.js` revision: one
`/products.json` request, i.e. the catalog's first page, searched for the
barcode. -/
def getProductByEan (w : World) (s : Store) (ean : String) : Option (Product × Variant) :=
  searchByEan ((w.pages s).headD []) ean

/-- The outcome of the debounced callback once its timer fires: the state
and adapter trace it produced, and whether a thrown error escaped the
`setTimeout` callback uncaught. -/
structure FireResult where
  state : State
  trace : List Effect
  uncaught : Bool

/-- `syncDeltaToOtherStore`: resolve the counterpart product by EAN, stop
quietly if absent; otherwise look up the target location, set a 30s echo
lock, apply the signed delta via `adjustInventoryLevel`, update the target
inventory snapshot (prior + delta if a prior value existed, else the
source's new absolute value), then write one sync log record.  The `catch`
clause rethrows, so a failure propagates to the caller. -/
def syncDeltaToOtherStore (w : World) (st : State) (sourceStore : Store) (ean : String)
    (delta newValue : Int) : FireResult :=
  let targetStore := sourceStore.other
  match getProductByEan w targetStore ean with
  | none => ⟨st, [.productByEan targetStore ean], false⟩
  | some (_, targetVariant) =>
    match w.ensovoLoc targetStore with
    | none => ⟨st, [.productByEan targetStore ean, .locationGet targetStore], true⟩
    | some locId =>
      let st1 := setLock st targetStore targetVariant.inventory_item_id
      let tr := [.productByEan targetStore ean, .locationGet targetStore,
        .adjustLevel targetStore targetVariant.inventory_item_id locId delta]
      if w.adjustFails targetStore then ⟨st1, tr, true⟩
      else
        let st2 :=
          match st1.inventory targetStore ean with
          | some v => setInventory st1 targetStore ean (v + delta)
          | none => setInventory st1 targetStore ean newValue
        ⟨logSyncEvent st2 sourceStore targetStore ean delta .delta, tr, false⟩

/-- `syncFullToOtherStore`: resolve the counterpart product by EAN, stop
quietly if absent; otherwise look up the target location, set a 30s echo
lock, write the absolute value via `setInventoryLevel`, overwrite the
target inventory snapshot with that value unconditionally, then write one
sync log record.  The `catch` clause rethrows. -/
def syncFullToOtherStore (w : World) (st : State) (sourceStore : Store) (ean : String)
    (available : Int) : FireResult :=
  let targetStore := sourceStore.other
  match getProductByEan w targetStore ean with
  | none => ⟨st, [.productByEan targetStore ean], false⟩
  | some (_, targetVariant) =>
    match w.ensovoLoc targetStore with
    | none => ⟨st, [.productByEan targetStore ean, .locationGet targetStore], true⟩
    | some locId =>
      let st1 := setLock st targetStore targetVariant.inventory_item_id
      let tr := [.productByEan targetStore ean, .locationGet targetStore,
        .setLevel targetStore targetVariant.inventory_item_id locId available]
      if w.setFails targetStore then ⟨st1, tr, true⟩
      else
        let st2 := setInventory st1 targetStore ean available
        ⟨logSyncEvent st2 sourceStore targetStore ean available .full, tr, false⟩

/-- The debounce timer firing for key `sync:debounce:<src>:<ean>`: the
callback removes itself from `pendingSyncs`, then branches exactly as the
scheduled closure does on its captured `previousAvailable` and `delta`.
Nothing above the timer catches, so any error the callback throws escapes
uncaught. -/
def fireDebounce (w : World) (st : State) (src : Store) (ean : String) : FireResult :=
  match st.pending src ean with
  | none => ⟨st, [], false⟩
  | some ps =>
    let st0 := clearPending st src ean
    if ps.previousAvailable.isSome && ps.delta != 0 then
      syncDeltaToOtherStore w st0 src ean ps.delta ps.available
    else if ps.previousAvailable.isNone then
      syncFullToOtherStore w st0 src ean ps.available
    else ⟨st0, [], false⟩

/-- How one webhook handling run ended, mirroring the branch taken in
`handleInventoryUpdate` (console markers in the source). -/
inductive HandleOutcome
  | skippedLocation
  | skippedLock
  | skippedNoProduct
  | skippedNoBarcode
  | scheduled
  | caughtError
deriving DecidableEq, Repr

/-- Result of `handleInventoryUpdate`: post-state, adapter trace, and which
branch ended the run. -/
structure HandleResult where
  state : State
  trace : List Effect
  outcome : HandleOutcome

/-- `previousAvailable !== null ? available - previousAvailable : 0`. -/
def computeDelta (prev : Option Int) (available : Int) : Int :=
  match prev with
  | some p => available - p
  | none => 0

/-- `handleInventoryUpdate` of `src/services/sync.js`: resolve the source
store's `Ensovo` location (a missing location throws and is caught by the
surrounding `try`, which logs one error record); skip if the event's
location differs; skip if an echo lock `sync:lock:<src>:<iid>` is active;
resolve the product through the tagged-catalog cache, skip if absent or
barcode-less; read the prior snapshot `inventory:<src>:<ean>`, compute the
delta, overwrite the snapshot with the new `available`, and debounce the
sync closure under `sync:debounce:<src>:<ean>`, superseding any pending
one.  The closure only gets scheduled here; it runs in `fireDebounce`. -/
def handleInventoryUpdate (w : World) (st : State) (e : Event) : HandleResult :=
  match w.ensovoLoc e.sourceStore with
  | none =>
    ⟨logError st "Location Ensovo not found" e.sourceStore e,
      [.locationGet e.sourceStore], .caughtError⟩
  | some locId =>
    if e.location_id ≠ locId then
      ⟨st, [.locationGet e.sourceStore], .skippedLocation⟩
    else if st.locks e.sourceStore e.inventory_item_id then
      ⟨st, [.locationGet e.sourceStore], .skippedLock⟩
    else
      match findProductByInventoryItemCached w st e.sourceStore e.inventory_item_id with
      | (st1, tr1, none) =>
        ⟨st1, .locationGet e.sourceStore :: tr1, .skippedNoProduct⟩
      | (st1, tr1, some (_, variant)) =>
        match variant.barcode with
        | none => ⟨st1, .locationGet e.sourceStore :: tr1, .skippedNoBarcode⟩
        | some ean =>
          let previousAvailable := st1.inventory e.sourceStore ean
          let delta := computeDelta previousAvailable e.available
          let st2 := setInventory st1 e.sourceStore ean e.available
          let st3 := setPending st2 e.sourceStore ean ⟨previousAvailable, delta, e.available⟩
          ⟨st3, .locationGet e.sourceStore :: tr1, .scheduled⟩

/-- Store 1's sync-tagged product, variant `inventory_item_id` 111, EAN `E1`. -/
def sourceProduct : Product :=
  { title := "P", tags := "sync-stock", variants := [⟨111, some "E1"⟩] }

/-- Store 2's counterpart product for EAN `E1`, `inventory_item_id` 222. -/
def targetProduct : Product :=
  { title := "Q", tags := "sync-stock", variants := [⟨222, some "E1"⟩] }

/-- A healthy two-store world: one-page catalogs holding the two enrolled
products, `Ensovo` location ids 77 and 88, no adapter failures. -/
def w0 : World where
  pages := fun s => match s with | .store1 => [[sourceProduct]] | .store2 => [[targetProduct]]
  ensovoLoc := fun s => match s with | .store1 => some 77 | .store2 => some 88
  adjustFails := fun _ => false
  setFails := fun _ => false

/-- `w0` whose store-2 `adjustInventoryLevel` endpoint fails with a
`StoreApiError`. -/
def wAdjustFail : World :=
  { w0 with adjustFails := fun s => match s with | .store2 => true | .store1 => false }

/-- A qualifying store-1 event for item 111 at the Ensovo location, 5 units. -/
def e0 : Event := ⟨.store1, 111, 77, 5⟩

/-- The same event reporting 3 units. -/
def e3 : Event := ⟨.store1, 111, 77, 3⟩

/-- The same webhook arriving for a non-Ensovo location. -/
def eWrongLoc : Event := ⟨.store1, 111, 999, 5⟩

/-- State with an active echo lock on `(store1, 111)` and nothing else. -/
def stLocked : State := setLock emptyState .store1 111

/-- State whose only entry is a prior source snapshot
`inventory:store1:E1 = 10`. -/
def stPrior : State := setInventory emptyState .store1 "E1" 10

/-- State whose only entry is a prior target snapshot
`inventory:store2:E1 = 7`. -/
def stTarget7 : State := setInventory emptyState .store2 "E1" 7

/-- `w0` whose store-1 adapter has no location named `Ensovo`, so
`getLocationByName` throws during webhook handling. -/
def wNoLoc : World :=
  { w0 with ensovoLoc := fun s => match s with | .store1 => none | .store2 => some 88 }

/-- The counterpart store is never the source store itself. -/
theorem Store.other_ne (s : Store) : s.other ≠ s := by
  cases s <;> simp [Store.other]

/-- The product-lookup cache never touches the inventory snapshots. -/
theorem findProduct_inventory (w : World) (st : State) (s : Store) (iid : Nat) :
    (findProductByInventoryItemCached w st s iid).1.inventory = st.inventory := by
  unfold findProductByInventoryItemCached
  cases st.productsCache s <;> simp [setProductsCache]

/-- The product-lookup cache never touches the echo locks. -/
theorem findProduct_locks (w : World) (st : State) (s : Store) (iid : Nat) :
    (findProductByInventoryItemCached w st s iid).1.locks = st.locks := by
  unfold findProductByInventoryItemCached
  cases st.productsCache s <;> simp [setProductsCache]

/-- The product-lookup cache never touches the debounce map. -/
theorem findProduct_pending (w : World) (st : State) (s : Store) (iid : Nat) :
    (findProductByInventoryItemCached w st s iid).1.pending = st.pending := by
  unfold findProductByInventoryItemCached
  cases st.productsCache s <;> simp [setProductsCache]

/-- The product-lookup cache never writes a sync log record. -/
theorem findProduct_syncLogs (w : World) (st : State) (s : Store) (iid : Nat) :
    (findProductByInventoryItemCached w st s iid).1.syncLogs = st.syncLogs := by
  unfold findProductByInventoryItemCached
  cases st.productsCache s <;> simp [setProductsCache]

/-- The product-lookup cache never writes an error log record. -/
theorem findProduct_errorLogs (w : World) (st : State) (s : Store) (iid : Nat) :
    (findProductByInventoryItemCached w st s iid).1.errorLogs = st.errorLogs := by
  unfold findProductByInventoryItemCached
  cases st.productsCache s <;> simp [setProductsCache]

/-- The product lookup performs no adapter inventory write. -/
theorem findProduct_noWrites (w : World) (st : State) (s : Store) (iid : Nat) :
    noWrites (findProductByInventoryItemCached w st s iid).2.1 = true := by
  unfold findProductByInventoryItemCached
  cases st.productsCache s <;> simp [noWrites, Effect.isWrite]

/-- After a lookup, the cache holds a snapshot whose search result is the
lookup's answer, so an immediate re-lookup is a cache hit with the same
answer. -/
theorem findProduct_post (w : World) (st : State) (s : Store) (iid : Nat) :
    ∃ ps, (findProductByInventoryItemCached w st s iid).1.productsCache s = some ps ∧
      searchByInventoryItem ps iid = (findProductByInventoryItemCached w st s iid).2.2 := by
  unfold findProductByInventoryItemCached
  cases h : st.productsCache s with
  | some products => exact ⟨products, h, rfl⟩
  | none => exact ⟨_, by simp [setProductsCache], rfl⟩

/-- On a state whose cache already holds a snapshot, the lookup is a pure
in-memory search. -/
theorem findProduct_hit (w : World) (st : State) (s : Store) (iid : Nat) (ps : List Product)
    (h : st.productsCache s = some ps) :
    findProductByInventoryItemCached w st s iid = (st, [], searchByInventoryItem ps iid) := by
  unfold findProductByInventoryItemCached
  rw [h]

/-- `handleInventoryUpdate` on a qualifying event: the location matches, no
echo lock is active, the cached lookup resolves a variant with a barcode.
The handler then overwrites the source snapshot with the event's value and
registers the debounced closure capturing the prior snapshot and delta. -/
theorem handle_qualifying (w : World) (st st1 : State) (e : Event) (tr1 : List Effect)
    (p : Product) (v : Variant) (ean : String)
    (hloc : w.ensovoLoc e.sourceStore = some e.location_id)
    (hlk : st.locks e.sourceStore e.inventory_item_id = false)
    (hfp : findProductByInventoryItemCached w st e.sourceStore e.inventory_item_id
      = (st1, tr1, some (p, v)))
    (hbc : v.barcode = some ean) :
    handleInventoryUpdate w st e =
      ⟨setPending (setInventory st1 e.sourceStore ean e.available) e.sourceStore ean
        ⟨st.inventory e.sourceStore ean,
          computeDelta (st.inventory e.sourceStore ean) e.available, e.available⟩,
        .locationGet e.sourceStore :: tr1, .scheduled⟩ := by
  have hinv : st1.inventory = st.inventory := by
    have h1 := findProduct_inventory w st e.sourceStore e.inventory_item_id
    rw [hfp] at h1
    exact h1
  unfold handleInventoryUpdate
  rw [hloc, hfp]
  simp [hlk, hbc, hinv]

/-- A store never equals its counterpart. -/
theorem Store.ne_other (s : Store) : s ≠ s.other := by
  cases s <;> simp [Store.other]

/-- A delta sync against an enrolled counterpart with a working adapter:
lock the target item, apply the signed delta, advance the target snapshot,
log once. -/
theorem syncDelta_success (w : World) (st : State) (src : Store) (ean : String)
    (d nv : Int) (tp : Product) (tv : Variant) (tl : Int)
    (htf : getProductByEan w src.other ean = some (tp, tv))
    (htl : w.ensovoLoc src.other = some tl)
    (hA : w.adjustFails src.other = false) :
    syncDeltaToOtherStore w st src ean d nv =
      ⟨logSyncEvent
          (match st.inventory src.other ean with
            | some v => setInventory (setLock st src.other tv.inventory_item_id)
                src.other ean (v + d)
            | none => setInventory (setLock st src.other tv.inventory_item_id)
                src.other ean nv)
          src src.other ean d .delta,
        [.productByEan src.other ean, .locationGet src.other,
          .adjustLevel src.other tv.inventory_item_id tl d],
        false⟩ := by
  unfold syncDeltaToOtherStore
  dsimp only
  rw [htf, htl]
  simp only [hA, Bool.false_eq_true, if_false]
  rfl

/-- A full sync against an enrolled counterpart with a working adapter:
lock the target item, write the absolute value, overwrite the target
snapshot unconditionally, log once. -/
theorem syncFull_success (w : World) (st : State) (src : Store) (ean : String)
    (a : Int) (tp : Product) (tv : Variant) (tl : Int)
    (htf : getProductByEan w src.other ean = some (tp, tv))
    (htl : w.ensovoLoc src.other = some tl)
    (hS : w.setFails src.other = false) :
    syncFullToOtherStore w st src ean a =
      ⟨logSyncEvent (setInventory (setLock st src.other tv.inventory_item_id) src.other ean a)
          src src.other ean a .full,
        [.productByEan src.other ean, .locationGet src.other,
          .setLevel src.other tv.inventory_item_id tl a],
        false⟩ := by
  unfold syncFullToOtherStore
  dsimp only
  rw [htf, htl]
  simp [hS]

/-- Firing a pending delta (prior snapshot present, non-zero delta). -/
theorem fire_delta (w : World) (st : State) (src : Store) (ean : String)
    (pv d a : Int)
    (hp : st.pending src ean = some ⟨some pv, d, a⟩)
    (hd : d ≠ 0) :
    fireDebounce w st src ean = syncDeltaToOtherStore w (clearPending st src ean) src ean d a := by
  unfold fireDebounce
  rw [hp]
  simp [hd]

/-- Firing a pending full sync (no prior snapshot). -/
theorem fire_full (w : World) (st : State) (src : Store) (ean : String) (d a : Int)
    (hp : st.pending src ean = some ⟨none, d, a⟩) :
    fireDebounce w st src ean = syncFullToOtherStore w (clearPending st src ean) src ean a := by
  unfold fireDebounce
  rw [hp]
  simp

/-- Firing a pending zero-delta entry is the no-op branch: only the timer
bookkeeping changes. -/
theorem fire_noop (w : World) (st : State) (src : Store) (ean : String) (pv a : Int)
    (hp : st.pending src ean = some ⟨some pv, 0, a⟩) :
    fireDebounce w st src ean = ⟨clearPending st src ean, [], false⟩ := by
  unfold fireDebounce
  rw [hp]
  simp

/-- Firing with no pending timer does nothing. -/
theorem fire_none (w : World) (st : State) (src : Store) (ean : String)
    (hp : st.pending src ean = none) :
    fireDebounce w st src ean = ⟨st, [], false⟩ := by
  unfold fireDebounce
  rw [hp]

/-- A delta sync only ever touches the counterpart store's keys: the source
store's snapshots and locks, the catalog caches, the debounce map and the
error log are left alone. -/
theorem syncDelta_frame (w : World) (st : State) (src : Store) (ean : String) (d nv : Int) :
    (syncDeltaToOtherStore w st src ean d nv).state.productsCache = st.productsCache ∧
    (∀ e', (syncDeltaToOtherStore w st src ean d nv).state.inventory src e' = st.inventory src e') ∧
    (∀ i, (syncDeltaToOtherStore w st src ean d nv).state.locks src i = st.locks src i) ∧
    (syncDeltaToOtherStore w st src ean d nv).state.pending = st.pending ∧
    (syncDeltaToOtherStore w st src ean d nv).state.errorLogs = st.errorLogs ∧
    (syncDeltaToOtherStore w st src ean d nv).state.errorCount = st.errorCount := by
  unfold syncDeltaToOtherStore
  dsimp only
  refine ⟨?_, fun e' => ?_, fun i => ?_, ?_, ?_, ?_⟩ <;>
  · split
    · rfl
    · split
      · rfl
      · split
        · simp [setLock, Store.ne_other]
        · split <;> simp [setLock, setInventory, logSyncEvent, Store.ne_other]

/-- A full sync only ever touches the counterpart store's keys. -/
theorem syncFull_frame (w : World) (st : State) (src : Store) (ean : String) (a : Int) :
    (syncFullToOtherStore w st src ean a).state.productsCache = st.productsCache ∧
    (∀ e', (syncFullToOtherStore w st src ean a).state.inventory src e' = st.inventory src e') ∧
    (∀ i, (syncFullToOtherStore w st src ean a).state.locks src i = st.locks src i) ∧
    (syncFullToOtherStore w st src ean a).state.pending = st.pending ∧
    (syncFullToOtherStore w st src ean a).state.errorLogs = st.errorLogs ∧
    (syncFullToOtherStore w st src ean a).state.errorCount = st.errorCount := by
  unfold syncFullToOtherStore
  dsimp only
  refine ⟨?_, fun e' => ?_, fun i => ?_, ?_, ?_, ?_⟩ <;>
  · split
    · rfl
    · split
      · rfl
      · split <;> simp [setLock, setInventory, logSyncEvent, Store.ne_other]

/-- The debounce timer firing never touches the source store's snapshots or
locks, the catalog caches, or the error log, whatever branch runs. -/
theorem fire_frame (w : World) (st : State) (src : Store) (ean : String) :
    (fireDebounce w st src ean).state.productsCache = st.productsCache ∧
    (∀ e', (fireDebounce w st src ean).state.inventory src e' = st.inventory src e') ∧
    (∀ i, (fireDebounce w st src ean).state.locks src i = st.locks src i) ∧
    (fireDebounce w st src ean).state.errorLogs = st.errorLogs ∧
    (fireDebounce w st src ean).state.errorCount = st.errorCount := by
  unfold fireDebounce
  cases hp : st.pending src ean with
  | none => exact ⟨rfl, fun _ => rfl, fun _ => rfl, rfl, rfl⟩
  | some ps =>
    dsimp only
    by_cases h1 : (ps.previousAvailable.isSome && ps.delta != 0) = true
    · simp only [h1, if_true]
      have h := syncDelta_frame w (clearPending st src ean) src ean ps.delta ps.available
      exact ⟨h.1, fun e' => h.2.1 e', fun i => h.2.2.1 i, h.2.2.2.2.1, h.2.2.2.2.2⟩
    · simp only [h1, if_false]
      by_cases h2 : ps.previousAvailable.isNone = true
      · simp only [h2, if_true]
        have h := syncFull_frame w (clearPending st src ean) src ean ps.available
        exact ⟨h.1, fun e' => h.2.1 e', fun i => h.2.2.1 i, h.2.2.2.2.1, h.2.2.2.2.2⟩
      · simp only [h2, if_false]
        exact ⟨rfl, fun _ => rfl, fun _ => rfl, rfl, rfl⟩

/-- C2: after every successful adapter write the target store's snapshot is
updated: a delta sync of `d` sets it to the prior target snapshot plus `d`
when a prior value existed and to the source's observed absolute value
otherwise; a full sync of `a` sets it to `a` unconditionally. -/
theorem C2_target_snapshot_update (w : World) (st : State) (src : Store) (ean : String)
    (d nv a : Int) (tp : Product) (tv : Variant) (tl : Int)
    (htf : getProductByEan w src.other ean = some (tp, tv))
    (htl : w.ensovoLoc src.other = some tl)
    (hA : w.adjustFails src.other = false)
    (hS : w.setFails src.other = false) :
    (syncDeltaToOtherStore w st src ean d nv).state.inventory src.other ean =
      some (match st.inventory src.other ean with
        | some v => v + d
        | none => nv) ∧
    (syncFullToOtherStore w st src ean a).state.inventory src.other ean = some a := by
  constructor
  · rw [syncDelta_success w st src ean d nv tp tv tl htf htl hA]
    cases h : st.inventory src.other ean <;>
      simp [logSyncEvent, setInventory, setLock]
  · rw [syncFull_success w st src ean a tp tv tl htf htl hS]
    simp [logSyncEvent, setInventory]

/-- Witness for C2: with a prior target snapshot of 7, a delta sync of +4
leaves the target snapshot at 11, and a full sync of 9 leaves it at 9. -/
theorem C2_target_snapshot_update_witness :
    (syncDeltaToOtherStore w0 stTarget7 .store1 "E1" 4 9).state.inventory
      (Store.other .store1) "E1" = some 11 ∧
    (syncFullToOtherStore w0 stTarget7 .store1 "E1" 9).state.inventory
      (Store.other .store1) "E1" = some 9 := by
  have h := C2_target_snapshot_update w0 stTarget7 .store1 "E1" 4 9 9
    targetProduct ⟨222, some "E1"⟩ 88 (by decide) (by decide) (by decide) (by decide)
  exact ⟨by rw [h.1]; decide, h.2⟩

/-- C8: when the counterpart lookup by EAN returns not-found, both the
delta and the full sync log a warning to the console and stop: the state is
completely unchanged (no lock, no snapshot write, no log record, no counter
change) and the only adapter interaction is the failed lookup — in
particular no adapter write and no error-counter increment. -/
theorem C8_not_enrolled (w : World) (st : State) (src : Store) (ean : String)
    (d nv a : Int)
    (hnone : getProductByEan w src.other ean = none) :
    syncDeltaToOtherStore w st src ean d nv =
      ⟨st, [.productByEan src.other ean], false⟩ ∧
    syncFullToOtherStore w st src ean a =
      ⟨st, [.productByEan src.other ean], false⟩ := by
  constructor
  · unfold syncDeltaToOtherStore
    dsimp only
    rw [hnone]
  · unfold syncFullToOtherStore
    dsimp only
    rw [hnone]

/-- Witness for C8: EAN `E7` is enrolled in neither catalog of `w0`; both
sync paths return with the state untouched and no write in the trace. -/
theorem C8_not_enrolled_witness :
    syncDeltaToOtherStore w0 stPrior .store1 "E7" 2 5 =
      ⟨stPrior, [.productByEan .store2 "E7"], false⟩ ∧
    syncFullToOtherStore w0 stPrior .store1 "E7" 5 =
      ⟨stPrior, [.productByEan .store2 "E7"], false⟩ :=
  C8_not_enrolled w0 stPrior .store1 "E7" 2 5 5 (by decide)

/-- C7: pagination of the tagged-catalog fetch.  The paginating revision of
`getProductsByTag` returns exactly the sync-tagged products of the whole
catalog, across all pages; but the first revision of
`src/services/shopify.js` stops after one page (`url = null; // Simplified
pagination for now`), so on a two-page catalog whose only tagged product
sits on page 2 it returns nothing at all. -/
theorem C7_pagination_eval :
    getProductsByTag_v1 syncTag pagesC7 = [] ∧
    getProductsByTag syncTag pagesC7 = [productTagged] ∧
    (∀ tag pages p, p ∈ getProductsByTag tag pages ↔
      p ∈ pages.flatten ∧ hasTag p tag = true) := by
  refine ⟨by decide, by decide, ?_⟩
  intro tag pages p
  exact getProductsByTag_complete tag pages p

/-- Counterexample to C3: prior snapshot 10, then `available:5` and
`available:3` inside one debounce window.  Exactly one reconciliation
fires, but it applies delta `3 - 5 = -2` — computed against the snapshot
written by the first event — and not `3 - 10 = -7` as the claim's
"snapshot that existed before the first of the two events" demands. -/
theorem C3_counterexample_delta_basis :
    (handleInventoryUpdate w0 (handleInventoryUpdate w0 stPrior e0).state e3).state.pending
        .store1 "E1" = some ⟨some 5, -2, 3⟩ ∧
    (fireDebounce w0
        (handleInventoryUpdate w0 (handleInventoryUpdate w0 stPrior e0).state e3).state
        .store1 "E1").trace =
      [.productByEan .store2 "E1", .locationGet .store2, .adjustLevel .store2 222 88 (-2)] ∧
    (-2 : Int) ≠ 3 - 10 := by
  refine ⟨by decide, by decide, by decide⟩

/-- C4: the code-level behaviour at the claim's failing input.  A
qualifying event with prior snapshot 10 and new value 5 schedules a delta
sync; the target adapter's `adjustInventoryLevel` fails with a
`StoreApiError` when the debounced callback fires.  `handleInventoryUpdate`'s
`try/catch` returned long before the timer fired, so the rethrown error
escapes the `setTimeout` callback uncaught: no `ErrorLogEntry` is written
and the error counter stays 0, contrary to the claim. -/
theorem C4_debounced_failure_uncaught :
    (fireDebounce wAdjustFail (handleInventoryUpdate wAdjustFail stPrior e0).state
        .store1 "E1").uncaught = true ∧
    (fireDebounce wAdjustFail (handleInventoryUpdate wAdjustFail stPrior e0).state
        .store1 "E1").state.errorLogs = [] ∧
    (fireDebounce wAdjustFail (handleInventoryUpdate wAdjustFail stPrior e0).state
        .store1 "E1").state.errorCount = 0 ∧
    hasWrite (fireDebounce wAdjustFail (handleInventoryUpdate wAdjustFail stPrior e0).state
        .store1 "E1").trace = true := by
  refine ⟨by decide, by decide, by decide, by decide⟩

/-- Counterexample to C5: an event skipped by the wrong-location filter
persists no `SyncLogEntry` and no `ErrorLogEntry` at all — not the "exactly
one" entry per outcome the claim requires. -/
theorem C5_counterexample_skip_no_log :
    (handleInventoryUpdate w0 emptyState eWrongLoc).outcome = .skippedLocation ∧
    (handleInventoryUpdate w0 emptyState eWrongLoc).state.syncLogs = [] ∧
    (handleInventoryUpdate w0 emptyState eWrongLoc).state.errorLogs = [] := by
  refine ⟨by decide, by decide, by decide⟩

/-- Counterexample to C6: before the echo-lock check, `handleInventoryUpdate`
always calls `sourceService.getLocationByName` — an adapter read of the
source store.  On an event whose key is locked, the drop therefore happens
after one adapter (non-write) call, not with "no adapter read". -/
theorem C6_counterexample_location_read :
    (handleInventoryUpdate w0 stLocked e0).outcome = .skippedLock ∧
    (handleInventoryUpdate w0 stLocked e0).trace = [.locationGet .store1] ∧
    Effect.isWrite (.locationGet .store1) = false := by
  refine ⟨by decide, by decide, by decide⟩

/-- After a debounce timer fires, its key holds no pending action: a second
firing for the same key is a no-op (exactly-once execution per registration). -/
theorem fire_pending_after (w : World) (st : State) (src : Store) (ean : String) :
    (fireDebounce w st src ean).state.pending src ean = none := by
  cases hp : st.pending src ean with
  | none =>
    rw [fire_none w st src ean hp]
    exact hp
  | some ps =>
    obtain ⟨pa, d, a⟩ := ps
    cases pa with
    | none =>
      rw [fire_full w st src ean d a hp]
      have h := syncFull_frame w (clearPending st src ean) src ean a
      rw [h.2.2.2.1]
      simp [clearPending]
    | some pv =>
      by_cases hd : d = 0
      · subst hd
        rw [fire_noop w st src ean pv a hp]
        simp [clearPending]
      · rw [fire_delta w st src ean pv d a hp hd]
        have h := syncDelta_frame w (clearPending st src ean) src ean d a
        rw [h.2.2.2.1]
        simp [clearPending]

/-- C6 (amended): an event whose key carries an active echo lock is dropped
with no state change whatsoever — no snapshot write, no debounce timer, no
lock, no log entry, no adapter write — the only preceding interaction being
the location lookup the location filter always performs. -/
theorem C6_amended_lock_drop (w : World) (st : State) (e : Event)
    (hloc : w.ensovoLoc e.sourceStore = some e.location_id)
    (hlk : st.locks e.sourceStore e.inventory_item_id = true) :
    handleInventoryUpdate w st e = ⟨st, [.locationGet e.sourceStore], .skippedLock⟩ := by
  unfold handleInventoryUpdate
  rw [hloc]
  simp [hlk]

/-- Witness for the amended C6: the locked event of the concrete scenario is
dropped, returning the state unchanged with only the location lookup traced. -/
theorem C6_amended_lock_drop_witness :
    handleInventoryUpdate w0 stLocked e0 =
      ⟨stLocked, [.locationGet .store1], .skippedLock⟩ :=
  C6_amended_lock_drop w0 stLocked e0 (by decide) (by decide)

/-- C10: for a qualifying event the source snapshot `inventory:<src>:<ean>`
is overwritten with the event's `available` during handling itself — before
the debounce fires — and the later firing never touches it, whatever its
outcome (superseded, failed or no-op). -/
theorem C10_source_snapshot_advances (w : World) (st st1 : State) (e : Event)
    (tr1 : List Effect) (p : Product) (v : Variant) (ean : String)
    (hloc : w.ensovoLoc e.sourceStore = some e.location_id)
    (hlk : st.locks e.sourceStore e.inventory_item_id = false)
    (hfp : findProductByInventoryItemCached w st e.sourceStore e.inventory_item_id
      = (st1, tr1, some (p, v)))
    (hbc : v.barcode = some ean) :
    (handleInventoryUpdate w st e).state.inventory e.sourceStore ean = some e.available ∧
    (fireDebounce w (handleInventoryUpdate w st e).state e.sourceStore ean).state.inventory
        e.sourceStore ean = some e.available := by
  have hh := handle_qualifying w st st1 e tr1 p v ean hloc hlk hfp hbc
  have h1 : (handleInventoryUpdate w st e).state.inventory e.sourceStore ean
      = some e.available := by
    rw [hh]
    simp [setPending, setInventory]
  refine ⟨h1, ?_⟩
  have hf := fire_frame w (handleInventoryUpdate w st e).state e.sourceStore ean
  rw [hf.2.1 ean]
  exact h1

/-- Witness for C10: with prior snapshot 10 and a target adapter whose
write endpoint fails, the event still advances the source snapshot to 5 at
handling time, and it remains 5 after the failed debounced sync. -/
theorem C10_source_snapshot_advances_witness :
    (handleInventoryUpdate wAdjustFail stPrior e0).state.inventory .store1 "E1" = some 5 ∧
    (fireDebounce wAdjustFail (handleInventoryUpdate wAdjustFail stPrior e0).state
        .store1 "E1").state.inventory .store1 "E1" = some 5 :=
  C10_source_snapshot_advances wAdjustFail stPrior
    (setProductsCache stPrior .store1 [sourceProduct]) e0 [.catalogFetch .store1]
    sourceProduct ⟨111, some "E1"⟩ "E1" (by decide) (by decide) rfl (by decide)

/-- C1: the decision table for a qualifying event against an enrolled,
healthy counterpart.  Handling itself performs no adapter write; if no
prior source snapshot exists the fired action is a full sync writing the
absolute `available`; if the prior snapshot gives delta 0 the fired action
performs no adapter call at all; if the delta is non-zero the fired action
applies exactly the signed delta and never a `setInventoryLevel`. -/
theorem C1_decision_table (w : World) (st st1 : State) (e : Event)
    (tr1 : List Effect) (p : Product) (v : Variant) (ean : String)
    (tp : Product) (tv : Variant) (tl : Int)
    (hloc : w.ensovoLoc e.sourceStore = some e.location_id)
    (hlk : st.locks e.sourceStore e.inventory_item_id = false)
    (hfp : findProductByInventoryItemCached w st e.sourceStore e.inventory_item_id
      = (st1, tr1, some (p, v)))
    (hbc : v.barcode = some ean)
    (htf : getProductByEan w e.sourceStore.other ean = some (tp, tv))
    (htl : w.ensovoLoc e.sourceStore.other = some tl)
    (hA : w.adjustFails e.sourceStore.other = false)
    (hS : w.setFails e.sourceStore.other = false) :
    noWrites (handleInventoryUpdate w st e).trace = true ∧
    (st.inventory e.sourceStore ean = none →
      (fireDebounce w (handleInventoryUpdate w st e).state e.sourceStore ean).trace =
        [.productByEan e.sourceStore.other ean, .locationGet e.sourceStore.other,
          .setLevel e.sourceStore.other tv.inventory_item_id tl e.available] ∧
      (fireDebounce w (handleInventoryUpdate w st e).state e.sourceStore ean).uncaught
        = false) ∧
    (∀ pv, st.inventory e.sourceStore ean = some pv → e.available - pv = 0 →
      (fireDebounce w (handleInventoryUpdate w st e).state e.sourceStore ean).trace = []) ∧
    (∀ pv, st.inventory e.sourceStore ean = some pv → e.available - pv ≠ 0 →
      (fireDebounce w (handleInventoryUpdate w st e).state e.sourceStore ean).trace =
        [.productByEan e.sourceStore.other ean, .locationGet e.sourceStore.other,
          .adjustLevel e.sourceStore.other tv.inventory_item_id tl (e.available - pv)] ∧
      (fireDebounce w (handleInventoryUpdate w st e).state e.sourceStore ean).uncaught
        = false) := by
  have hh := handle_qualifying w st st1 e tr1 p v ean hloc hlk hfp hbc
  have hnw := findProduct_noWrites w st e.sourceStore e.inventory_item_id
  rw [hfp] at hnw
  refine ⟨?_, ?_, ?_, ?_⟩
  · rw [hh]
    simp only [noWrites, List.all_cons] at hnw ⊢
    rw [hnw]
    rfl
  · intro h0
    have hp : (handleInventoryUpdate w st e).state.pending e.sourceStore ean =
        some ⟨none, 0, e.available⟩ := by
      rw [hh]
      simp [setPending, h0, computeDelta]
    rw [fire_full w (handleInventoryUpdate w st e).state e.sourceStore ean 0 e.available hp,
      syncFull_success w _ e.sourceStore ean e.available tp tv tl htf htl hS]
    exact ⟨rfl, rfl⟩
  · intro pv hpv h0
    have hp : (handleInventoryUpdate w st e).state.pending e.sourceStore ean =
        some ⟨some pv, 0, e.available⟩ := by
      rw [hh]
      simp [setPending, hpv, computeDelta, h0]
    rw [fire_noop w (handleInventoryUpdate w st e).state e.sourceStore ean pv e.available hp]
  · intro pv hpv h0
    have hp : (handleInventoryUpdate w st e).state.pending e.sourceStore ean =
        some ⟨some pv, e.available - pv, e.available⟩ := by
      rw [hh]
      simp [setPending, hpv, computeDelta]
    rw [fire_delta w (handleInventoryUpdate w st e).state e.sourceStore ean pv
        (e.available - pv) e.available hp h0,
      syncDelta_success w _ e.sourceStore ean (e.available - pv) e.available tp tv tl htf htl hA]
    exact ⟨rfl, rfl⟩

/-- Witness for C1: with no prior snapshot the fired action is the full
sync writing the absolute value 5 to the counterpart store. -/
theorem C1_decision_table_witness :
    noWrites (handleInventoryUpdate w0 emptyState e0).trace = true ∧
    (fireDebounce w0 (handleInventoryUpdate w0 emptyState e0).state .store1 "E1").trace =
      [.productByEan (Store.other .store1) "E1", .locationGet (Store.other .store1),
        .setLevel (Store.other .store1) 222 88 5] ∧
    (fireDebounce w0 (handleInventoryUpdate w0 emptyState e0).state .store1 "E1").uncaught
      = false := by
  have h := C1_decision_table w0 emptyState (setProductsCache emptyState .store1 [sourceProduct])
    e0 [.catalogFetch .store1] sourceProduct ⟨111, some "E1"⟩ "E1"
    targetProduct ⟨222, some "E1"⟩ 88
    (by decide) (by decide) rfl (by decide) (by decide) (by decide) (by decide) (by decide)
  exact ⟨h.1, (h.2.1 rfl).1, (h.2.1 rfl).2⟩

/-- C3 (amended): two qualifying events on the same key inside one debounce
window leave exactly one registered reconciliation — the later event's —
whose delta is computed against the source snapshot written by the first
event, i.e. `later available - first available`; firing consumes the
registration and a repeat firing does nothing. -/
theorem C3_amended_single_reconciliation (w : World) (st st1 : State) (e1 e2 : Event)
    (tr1 : List Effect) (p : Product) (v : Variant) (ean : String)
    (hsrc : e2.sourceStore = e1.sourceStore)
    (hiid : e2.inventory_item_id = e1.inventory_item_id)
    (hlid : e2.location_id = e1.location_id)
    (hloc : w.ensovoLoc e1.sourceStore = some e1.location_id)
    (hlk : st.locks e1.sourceStore e1.inventory_item_id = false)
    (hfp : findProductByInventoryItemCached w st e1.sourceStore e1.inventory_item_id
      = (st1, tr1, some (p, v)))
    (hbc : v.barcode = some ean) :
    (handleInventoryUpdate w (handleInventoryUpdate w st e1).state e2).state.pending
        e1.sourceStore ean =
      some ⟨some e1.available, e2.available - e1.available, e2.available⟩ ∧
    (fireDebounce w (handleInventoryUpdate w (handleInventoryUpdate w st e1).state e2).state
        e1.sourceStore ean).state.pending e1.sourceStore ean = none ∧
    (fireDebounce w
        (fireDebounce w (handleInventoryUpdate w (handleInventoryUpdate w st e1).state e2).state
          e1.sourceStore ean).state
        e1.sourceStore ean).trace = [] := by
  have hh1 := handle_qualifying w st st1 e1 tr1 p v ean hloc hlk hfp hbc
  have hAinv : (handleInventoryUpdate w st e1).state.inventory e1.sourceStore ean
      = some e1.available := by
    rw [hh1]
    simp [setPending, setInventory]
  have hl := findProduct_locks w st e1.sourceStore e1.inventory_item_id
  rw [hfp] at hl
  have hAlk : (handleInventoryUpdate w st e1).state.locks e1.sourceStore e1.inventory_item_id
      = false := by
    rw [hh1]
    show st1.locks e1.sourceStore e1.inventory_item_id = false
    rw [hl]
    exact hlk
  have hAcache : (handleInventoryUpdate w st e1).state.productsCache = st1.productsCache := by
    rw [hh1]
    rfl
  obtain ⟨ps, hps, hsearch⟩ := findProduct_post w st e1.sourceStore e1.inventory_item_id
  rw [hfp] at hps hsearch
  have hfp2 : findProductByInventoryItemCached w (handleInventoryUpdate w st e1).state
      e1.sourceStore e1.inventory_item_id
      = ((handleInventoryUpdate w st e1).state, [], some (p, v)) := by
    rw [findProduct_hit w (handleInventoryUpdate w st e1).state e1.sourceStore
      e1.inventory_item_id ps (by rw [hAcache]; exact hps), hsearch]
  have hloc2 : w.ensovoLoc e2.sourceStore = some e2.location_id := by
    rw [hsrc, hlid]
    exact hloc
  have hlk2 : (handleInventoryUpdate w st e1).state.locks e2.sourceStore e2.inventory_item_id
      = false := by
    rw [hsrc, hiid]
    exact hAlk
  have hfp2' : findProductByInventoryItemCached w (handleInventoryUpdate w st e1).state
      e2.sourceStore e2.inventory_item_id
      = ((handleInventoryUpdate w st e1).state, [], some (p, v)) := by
    rw [hsrc, hiid]
    exact hfp2
  have hh2 := handle_qualifying w (handleInventoryUpdate w st e1).state
    (handleInventoryUpdate w st e1).state e2 [] p v ean hloc2 hlk2 hfp2' hbc
  refine ⟨?_, fire_pending_after w _ e1.sourceStore ean,
    by rw [fire_none w _ e1.sourceStore ean (fire_pending_after w _ e1.sourceStore ean)]⟩
  rw [hh2, hsrc]
  simp [setPending, hAinv, computeDelta]

/-- Witness for the amended C3: prior snapshot 10, events 5 then 3; the one
registered reconciliation carries delta `3 - 5 = -2`, and firing it once
empties the key so a second firing does nothing. -/
theorem C3_amended_single_reconciliation_witness :
    (handleInventoryUpdate w0 (handleInventoryUpdate w0 stPrior e0).state e3).state.pending
        .store1 "E1" = some ⟨some 5, -2, 3⟩ ∧
    (fireDebounce w0 (handleInventoryUpdate w0 (handleInventoryUpdate w0 stPrior e0).state
        e3).state .store1 "E1").state.pending .store1 "E1" = none ∧
    (fireDebounce w0
        (fireDebounce w0 (handleInventoryUpdate w0 (handleInventoryUpdate w0 stPrior e0).state
          e3).state .store1 "E1").state
        .store1 "E1").trace = [] := by
  have h := C3_amended_single_reconciliation w0 stPrior
    (setProductsCache stPrior .store1 [sourceProduct]) e0 e3 [.catalogFetch .store1]
    sourceProduct ⟨111, some "E1"⟩ "E1" rfl rfl rfl (by decide) (by decide) rfl (by decide)
  exact ⟨h.1, h.2.1, h.2.2⟩

/-- Replaying a qualifying event against a state that already records its
`available` value as the source snapshot: the handler computes delta 0, and
the fired callback performs no adapter call and leaves the counterpart
snapshot untouched. -/
theorem replay_noop_aux (w : World) (stF : State) (e : Event) (p : Product) (v : Variant)
    (ean : String)
    (hloc : w.ensovoLoc e.sourceStore = some e.location_id)
    (hFlk : stF.locks e.sourceStore e.inventory_item_id = false)
    (hfp2 : findProductByInventoryItemCached w stF e.sourceStore e.inventory_item_id
      = (stF, [], some (p, v)))
    (hbc : v.barcode = some ean)
    (hFinv : stF.inventory e.sourceStore ean = some e.available) :
    (handleInventoryUpdate w stF e).state.pending e.sourceStore ean
      = some ⟨some e.available, 0, e.available⟩ ∧
    (fireDebounce w (handleInventoryUpdate w stF e).state e.sourceStore ean).trace = [] ∧
    (fireDebounce w (handleInventoryUpdate w stF e).state e.sourceStore ean).uncaught = false ∧
    (fireDebounce w (handleInventoryUpdate w stF e).state e.sourceStore ean).state.inventory
        e.sourceStore.other ean
      = stF.inventory e.sourceStore.other ean := by
  have hh := handle_qualifying w stF stF e [] p v ean hloc hFlk hfp2 hbc
  have hpend : (handleInventoryUpdate w stF e).state.pending e.sourceStore ean
      = some ⟨some e.available, 0, e.available⟩ := by
    rw [hh]
    simp [setPending, hFinv, computeDelta]
  have hfire := fire_noop w (handleInventoryUpdate w stF e).state e.sourceStore ean
    e.available e.available hpend
  refine ⟨hpend, by rw [hfire], by rw [hfire], ?_⟩
  rw [hfire]
  show (handleInventoryUpdate w stF e).state.inventory e.sourceStore.other ean
    = stF.inventory e.sourceStore.other ean
  rw [hh]
  show (setInventory stF e.sourceStore ean e.available).inventory e.sourceStore.other ean
    = stF.inventory e.sourceStore.other ean
  simp [setInventory, Store.other_ne]

/-- C9: replaying an already-processed event (same store, item, location
and value, no intervening event, no lock on the source key) computes delta
0 against the snapshot the first processing wrote and is a no-op: the
second firing makes no adapter call, throws nothing, and leaves the target
snapshot exactly as the first processing left it. -/
theorem C9_replay_idempotent (w : World) (st st1 : State) (e : Event) (tr1 : List Effect)
    (p : Product) (v : Variant) (ean : String)
    (hloc : w.ensovoLoc e.sourceStore = some e.location_id)
    (hlk : st.locks e.sourceStore e.inventory_item_id = false)
    (hfp : findProductByInventoryItemCached w st e.sourceStore e.inventory_item_id
      = (st1, tr1, some (p, v)))
    (hbc : v.barcode = some ean) :
    (handleInventoryUpdate w
        (fireDebounce w (handleInventoryUpdate w st e).state e.sourceStore ean).state
        e).state.pending e.sourceStore ean = some ⟨some e.available, 0, e.available⟩ ∧
    (fireDebounce w
        (handleInventoryUpdate w
          (fireDebounce w (handleInventoryUpdate w st e).state e.sourceStore ean).state
          e).state
        e.sourceStore ean).trace = [] ∧
    (fireDebounce w
        (handleInventoryUpdate w
          (fireDebounce w (handleInventoryUpdate w st e).state e.sourceStore ean).state
          e).state
        e.sourceStore ean).uncaught = false ∧
    (fireDebounce w
        (handleInventoryUpdate w
          (fireDebounce w (handleInventoryUpdate w st e).state e.sourceStore ean).state
          e).state
        e.sourceStore ean).state.inventory e.sourceStore.other ean
      = (fireDebounce w (handleInventoryUpdate w st e).state e.sourceStore ean).state.inventory
          e.sourceStore.other ean := by
  have hh1 := handle_qualifying w st st1 e tr1 p v ean hloc hlk hfp hbc
  have hAinv : (handleInventoryUpdate w st e).state.inventory e.sourceStore ean
      = some e.available := by
    rw [hh1]
    simp [setPending, setInventory]
  have hl := findProduct_locks w st e.sourceStore e.inventory_item_id
  rw [hfp] at hl
  have hAlk : (handleInventoryUpdate w st e).state.locks e.sourceStore e.inventory_item_id
      = false := by
    rw [hh1]
    show st1.locks e.sourceStore e.inventory_item_id = false
    rw [hl]
    exact hlk
  have hAcache : (handleInventoryUpdate w st e).state.productsCache = st1.productsCache := by
    rw [hh1]
    rfl
  have hf := fire_frame w (handleInventoryUpdate w st e).state e.sourceStore ean
  have hFinv : (fireDebounce w (handleInventoryUpdate w st e).state e.sourceStore
      ean).state.inventory e.sourceStore ean = some e.available := by
    rw [hf.2.1 ean]
    exact hAinv
  have hFlk : (fireDebounce w (handleInventoryUpdate w st e).state e.sourceStore
      ean).state.locks e.sourceStore e.inventory_item_id = false := by
    rw [hf.2.2.1 e.inventory_item_id]
    exact hAlk
  have hFcache : (fireDebounce w (handleInventoryUpdate w st e).state e.sourceStore
      ean).state.productsCache = st1.productsCache := by
    rw [hf.1]
    exact hAcache
  obtain ⟨ps, hps, hsearch⟩ := findProduct_post w st e.sourceStore e.inventory_item_id
  rw [hfp] at hps hsearch
  have hfp2 : findProductByInventoryItemCached w
      (fireDebounce w (handleInventoryUpdate w st e).state e.sourceStore ean).state
      e.sourceStore e.inventory_item_id
      = ((fireDebounce w (handleInventoryUpdate w st e).state e.sourceStore ean).state, [],
          some (p, v)) := by
    rw [findProduct_hit w
      (fireDebounce w (handleInventoryUpdate w st e).state e.sourceStore ean).state
      e.sourceStore e.inventory_item_id ps (by rw [hFcache]; exact hps), hsearch]
  exact replay_noop_aux w
    (fireDebounce w (handleInventoryUpdate w st e).state e.sourceStore ean).state
    e p v ean hloc hFlk hfp2 hbc hFinv

/-- Witness for C9: processing event `available:5` from an empty state
(full sync applies 5 to the counterpart), then replaying the identical
event: the replay registers delta 0 and its firing is a no-op leaving the
target snapshot at 5. -/
theorem C9_replay_idempotent_witness :
    (handleInventoryUpdate w0
        (fireDebounce w0 (handleInventoryUpdate w0 emptyState e0).state .store1 "E1").state
        e0).state.pending .store1 "E1" = some ⟨some 5, 0, 5⟩ ∧
    (fireDebounce w0
        (handleInventoryUpdate w0
          (fireDebounce w0 (handleInventoryUpdate w0 emptyState e0).state .store1 "E1").state
          e0).state
        .store1 "E1").trace = [] ∧
    (fireDebounce w0
        (handleInventoryUpdate w0
          (fireDebounce w0 (handleInventoryUpdate w0 emptyState e0).state .store1 "E1").state
          e0).state
        .store1 "E1").state.inventory (Store.other .store1) "E1"
      = (fireDebounce w0 (handleInventoryUpdate w0 emptyState e0).state
          .store1 "E1").state.inventory (Store.other .store1) "E1" := by
  have h := C9_replay_idempotent w0 emptyState
    (setProductsCache emptyState .store1 [sourceProduct]) e0 [.catalogFetch .store1]
    sourceProduct ⟨111, some "E1"⟩ "E1" (by decide) (by decide) rfl (by decide)
  exact ⟨h.1, h.2.1, h.2.2.2⟩

/-- Log discipline of a delta sync: a successful write appends exactly one
sync log record and no error record; a run without a write appends nothing;
a throwing run appends nothing (the error escapes before any logging). -/
theorem syncDelta_logs (w : World) (st : State) (src : Store) (ean : String) (d nv : Int) :
    ((syncDeltaToOtherStore w st src ean d nv).uncaught = false →
      hasWrite (syncDeltaToOtherStore w st src ean d nv).trace = true →
      (syncDeltaToOtherStore w st src ean d nv).state.syncLogs.length
        = st.syncLogs.length + 1 ∧
      (syncDeltaToOtherStore w st src ean d nv).state.errorLogs = st.errorLogs) ∧
    (hasWrite (syncDeltaToOtherStore w st src ean d nv).trace = false →
      (syncDeltaToOtherStore w st src ean d nv).state.syncLogs = st.syncLogs ∧
      (syncDeltaToOtherStore w st src ean d nv).state.errorLogs = st.errorLogs) ∧
    ((syncDeltaToOtherStore w st src ean d nv).uncaught = true →
      (syncDeltaToOtherStore w st src ean d nv).state.syncLogs = st.syncLogs ∧
      (syncDeltaToOtherStore w st src ean d nv).state.errorLogs = st.errorLogs) := by
  unfold syncDeltaToOtherStore
  dsimp only
  split
  · exact ⟨fun _ hw => by simp [hasWrite, Effect.isWrite] at hw, fun _ => ⟨rfl, rfl⟩,
      fun hu => by simp at hu⟩
  · split
    · exact ⟨fun hu _ => by simp at hu, fun _ => ⟨rfl, rfl⟩, fun _ => ⟨rfl, rfl⟩⟩
    · split
      · exact ⟨fun hu _ => by simp at hu,
          fun hw => by simp [hasWrite, Effect.isWrite] at hw,
          fun _ => ⟨rfl, rfl⟩⟩
      · refine ⟨fun _ _ => ⟨?_, ?_⟩,
          fun hw => by simp [hasWrite, Effect.isWrite] at hw,
          fun hu => by simp at hu⟩
        · split <;> simp [logSyncEvent, setInventory, setLock]
        · split <;> rfl

/-- Log discipline of a full sync, mirroring `syncDelta_logs`. -/
theorem syncFull_logs (w : World) (st : State) (src : Store) (ean : String) (a : Int) :
    ((syncFullToOtherStore w st src ean a).uncaught = false →
      hasWrite (syncFullToOtherStore w st src ean a).trace = true →
      (syncFullToOtherStore w st src ean a).state.syncLogs.length
        = st.syncLogs.length + 1 ∧
      (syncFullToOtherStore w st src ean a).state.errorLogs = st.errorLogs) ∧
    (hasWrite (syncFullToOtherStore w st src ean a).trace = false →
      (syncFullToOtherStore w st src ean a).state.syncLogs = st.syncLogs ∧
      (syncFullToOtherStore w st src ean a).state.errorLogs = st.errorLogs) ∧
    ((syncFullToOtherStore w st src ean a).uncaught = true →
      (syncFullToOtherStore w st src ean a).state.syncLogs = st.syncLogs ∧
      (syncFullToOtherStore w st src ean a).state.errorLogs = st.errorLogs) := by
  unfold syncFullToOtherStore
  dsimp only
  split
  · exact ⟨fun _ hw => by simp [hasWrite, Effect.isWrite] at hw, fun _ => ⟨rfl, rfl⟩,
      fun hu => by simp at hu⟩
  · split
    · exact ⟨fun hu _ => by simp at hu, fun _ => ⟨rfl, rfl⟩, fun _ => ⟨rfl, rfl⟩⟩
    · split
      · exact ⟨fun hu _ => by simp at hu,
          fun hw => by simp [hasWrite, Effect.isWrite] at hw,
          fun _ => ⟨rfl, rfl⟩⟩
      · exact ⟨fun _ _ => ⟨by simp [logSyncEvent, setInventory, setLock], rfl⟩,
          fun hw => by simp [hasWrite, Effect.isWrite] at hw,
          fun hu => by simp at hu⟩

/-- Log discipline of a firing debounce timer, whatever branch it takes. -/
theorem fire_logs (w : World) (st : State) (src : Store) (ean : String) :
    ((fireDebounce w st src ean).uncaught = false →
      hasWrite (fireDebounce w st src ean).trace = true →
      (fireDebounce w st src ean).state.syncLogs.length = st.syncLogs.length + 1 ∧
      (fireDebounce w st src ean).state.errorLogs = st.errorLogs) ∧
    (hasWrite (fireDebounce w st src ean).trace = false →
      (fireDebounce w st src ean).state.syncLogs = st.syncLogs ∧
      (fireDebounce w st src ean).state.errorLogs = st.errorLogs) ∧
    ((fireDebounce w st src ean).uncaught = true →
      (fireDebounce w st src ean).state.syncLogs = st.syncLogs ∧
      (fireDebounce w st src ean).state.errorLogs = st.errorLogs) := by
  cases hp : st.pending src ean with
  | none =>
    rw [fire_none w st src ean hp]
    exact ⟨fun _ hw => by simp [hasWrite] at hw, fun _ => ⟨rfl, rfl⟩,
      fun hu => by simp at hu⟩
  | some ps =>
    obtain ⟨pa, d, a⟩ := ps
    cases pa with
    | none =>
      rw [fire_full w st src ean d a hp]
      exact syncFull_logs w (clearPending st src ean) src ean a
    | some pv =>
      by_cases hd : d = 0
      · subst hd
        rw [fire_noop w st src ean pv a hp]
        exact ⟨fun _ hw => by simp [hasWrite] at hw, fun _ => ⟨rfl, rfl⟩,
          fun hu => by simp at hu⟩
      · rw [fire_delta w st src ean pv d a hp hd]
        exact syncDelta_logs w (clearPending st src ean) src ean d a

/-- Log discipline of webhook handling: only the `catch` branch persists a
record (exactly one error entry); every other handling outcome — scheduled
or skipped — persists nothing. -/
theorem handle_logs (w : World) (st : State) (e : Event) :
    ((handleInventoryUpdate w st e).outcome = HandleOutcome.caughtError →
      (handleInventoryUpdate w st e).state.errorLogs.length = st.errorLogs.length + 1 ∧
      (handleInventoryUpdate w st e).state.syncLogs = st.syncLogs) ∧
    ((handleInventoryUpdate w st e).outcome ≠ HandleOutcome.caughtError →
      (handleInventoryUpdate w st e).state.syncLogs = st.syncLogs ∧
      (handleInventoryUpdate w st e).state.errorLogs = st.errorLogs) := by
  have hsl := findProduct_syncLogs w st e.sourceStore e.inventory_item_id
  have hel := findProduct_errorLogs w st e.sourceStore e.inventory_item_id
  rcases hfp : findProductByInventoryItemCached w st e.sourceStore e.inventory_item_id
    with ⟨st1, tr1, r⟩
  rw [hfp] at hsl hel
  unfold handleInventoryUpdate
  rw [hfp]
  cases hL : w.ensovoLoc e.sourceStore with
  | none => exact ⟨fun _ => ⟨by simp [logError], rfl⟩, fun hne => absurd rfl hne⟩
  | some l =>
    dsimp only
    by_cases h1 : e.location_id ≠ l
    · rw [if_pos h1]
      exact ⟨fun h => by simp at h, fun _ => ⟨rfl, rfl⟩⟩
    · rw [if_neg h1]
      by_cases h2 : st.locks e.sourceStore e.inventory_item_id = true
      · rw [if_pos h2]
        exact ⟨fun h => by simp at h, fun _ => ⟨rfl, rfl⟩⟩
      · rw [if_neg h2]
        cases r with
        | none => exact ⟨fun h => by simp at h, fun _ => ⟨hsl, hel⟩⟩
        | some pv =>
          obtain ⟨pp, vv⟩ := pv
          dsimp only
          cases hb : vv.barcode with
          | none => exact ⟨fun h => by simp at h, fun _ => ⟨hsl, hel⟩⟩
          | some ean => exact ⟨fun h => by simp at h, fun _ => ⟨hsl, hel⟩⟩

/-- C5 (amended): persisted logging per outcome.  A handling run persists a
record only in the caught-error branch, and then exactly one ErrorLogEntry;
all skip outcomes and the scheduling outcome persist nothing.  A firing
debounce timer persists exactly one SyncLogEntry when (and only when) an
adapter write succeeded; a firing that performs no write — no-op or
counterpart-not-enrolled — persists neither a SyncLogEntry nor an
ErrorLogEntry, and a firing whose error escapes uncaught also persists
nothing. -/
theorem C5_amended_logging (w : World) (st : State) (e : Event) (src : Store) (ean : String) :
    (((handleInventoryUpdate w st e).outcome ≠ HandleOutcome.caughtError →
      (handleInventoryUpdate w st e).state.syncLogs = st.syncLogs ∧
      (handleInventoryUpdate w st e).state.errorLogs = st.errorLogs) ∧
    ((handleInventoryUpdate w st e).outcome = HandleOutcome.caughtError →
      (handleInventoryUpdate w st e).state.errorLogs.length = st.errorLogs.length + 1 ∧
      (handleInventoryUpdate w st e).state.syncLogs = st.syncLogs)) ∧
    ((fireDebounce w st src ean).uncaught = false →
      hasWrite (fireDebounce w st src ean).trace = true →
      (fireDebounce w st src ean).state.syncLogs.length = st.syncLogs.length + 1 ∧
      (fireDebounce w st src ean).state.errorLogs = st.errorLogs) ∧
    (hasWrite (fireDebounce w st src ean).trace = false →
      (fireDebounce w st src ean).state.syncLogs = st.syncLogs ∧
      (fireDebounce w st src ean).state.errorLogs = st.errorLogs) ∧
    ((fireDebounce w st src ean).uncaught = true →
      (fireDebounce w st src ean).state.syncLogs = st.syncLogs ∧
      (fireDebounce w st src ean).state.errorLogs = st.errorLogs) := by
  have hh := handle_logs w st e
  have hf := fire_logs w st src ean
  exact ⟨⟨hh.2, hh.1⟩, hf.1, hf.2.1, hf.2.2⟩

/-- Witness for the amended C5: a missing source location is caught and
persists exactly one error record; a successful full-sync firing persists
exactly one sync record. -/
theorem C5_amended_logging_witness :
    (handleInventoryUpdate wNoLoc emptyState e0).state.errorLogs.length
      = emptyState.errorLogs.length + 1 ∧
    (fireDebounce w0 (handleInventoryUpdate w0 emptyState e0).state
        .store1 "E1").state.syncLogs.length
      = (handleInventoryUpdate w0 emptyState e0).state.syncLogs.length + 1 ∧
    (fireDebounce w0 emptyState .store1 "E1").state.syncLogs = emptyState.syncLogs ∧
    (fireDebounce w0 emptyState .store1 "E1").state.errorLogs = emptyState.errorLogs := by
  have h1 := (C5_amended_logging wNoLoc emptyState e0 .store1 "E1").1.2 (by decide)
  have h2 := (C5_amended_logging w0 (handleInventoryUpdate w0 emptyState e0).state e0
    .store1 "E1").2.1 (by decide) (by decide)
  have h3 := (C5_amended_logging w0 emptyState e0 .store1 "E1").2.2.1 (by decide)
  exact ⟨h1.1, h2.1, h3.1, h3.2⟩

end EnsovoSync
